import Mathlib

/-!
The attach / detach orchestration of k8s-cni.

A shallow embedding of `src/main.go` and `src/config.go`.

The program is a sequence of calls into external libraries (netlink, the CNI
`ip`, `ipam`, `ns` and `types` packages, `encoding/json`).  Those libraries are
not part of the repository; they are taken as a parameter `Collab σ`, a record
of state transformers over an arbitrary world `σ` (kernel network state plus
the state of the allocation plugin).  Every call the program makes is recorded,
with its arguments and its result, in the `calls` list of the `Outcome`.

The diagnostic log (`os.OpenFile` on `logFile`, `log.SetOutput`,
`log.Println`) never gates control flow: the error of `os.OpenFile` is
discarded by an empty `if`.  It is kept as a separate output channel `log`,
which stays empty when the file could not be opened.
-/

namespace K8sCni

/-! ## Data model -/

/-- A `[]byte`; every element stands for one byte. -/
abbrev Bytes := List Nat

/-- An `error` value handed back by an external library. -/
abbrev ExtErr := String

/-- The `error` values the program returns.  `fmt.Errorf` wrappers keep the
formatted operands instead of the formatted text. -/
inductive Error where
  /-- an error of a library call, returned unchanged (`return err`) -/
  | ext (cause : ExtErr)
  /-- config.go:15 `failed to load netconf: %v` -/
  | failedToLoadNetconf (cause : ExtErr)
  /-- main.go:36 `could not lookup %q: %v` -/
  | couldNotLookup (name : String) (cause : ExtErr)
  /-- main.go:40 `%q already exists but is not a bridge` -/
  | notABridge (name : String)
  /-- main.go:126 `%s bridge is missing` -/
  | bridgeMissing (name : String)
  /-- main.go:137 `failed to open netns %q: %v` -/
  | failedToOpenNetns (path : String) (cause : ExtErr)
  /-- main.go:68 `failed to lookup %q: %v` -/
  | failedToLookup (name : String) (cause : ExtErr)
  /-- main.go:73 `failed to connect %q to bridge %v: %v` -/
  | failedToConnect (veth : String) (bridge : String) (cause : ExtErr)
  /-- main.go:78 `failed to setup hairpin mode for %v: %v` -/
  | failedHairpin (veth : String) (cause : ExtErr)
  /-- main.go:160 `IPAM plugin returned missing IPv4 config` -/
  | missingIPv4
  deriving DecidableEq, Repr

/-- The library error an `Error` was built from, when there is one. -/
def Error.cause? : Error → Option ExtErr
  | .ext c => some c
  | .failedToLoadNetconf c => some c
  | .couldNotLookup _ c => some c
  | .notABridge _ => none
  | .bridgeMissing _ => none
  | .failedToOpenNetns _ c => some c
  | .failedToLookup _ c => some c
  | .failedToConnect _ _ c => some c
  | .failedHairpin _ c => some c
  | .missingIPv4 => none

/-- The result of a library call: `(value, error)` with exactly one set. -/
inductive Res (α : Type) where
  | ok (v : α)
  | err (e : ExtErr)
  deriving DecidableEq, Repr

/-- The error of a library result, `none` when it succeeded. -/
def Res.err? {α : Type} : Res α → Option ExtErr
  | .ok _ => none
  | .err e => some e

/-- `netlink.LinkAttrs`, the fields the program can observe. -/
structure LinkAttrs where
  Name : String
  Index : Int
  deriving DecidableEq, Repr

/-- `*netlink.Bridge` (non-nil). -/
structure Bridge where
  attrs : LinkAttrs
  deriving DecidableEq, Repr

/-- `netlink.Link`: an interface value whose dynamic type is `*netlink.Bridge`,
`*netlink.Veth` or any other link type. -/
inductive Link where
  | bridge (b : Bridge)
  | veth (a : LinkAttrs)
  | device (a : LinkAttrs)
  deriving DecidableEq, Repr

/-- `Link.Attrs()`. -/
def Link.Attrs : Link → LinkAttrs
  | .bridge b => b.attrs
  | .veth a => a
  | .device a => a

/-- The type assertion `l.(*netlink.Bridge)`. -/
def Link.asBridge : Link → Option Bridge
  | .bridge b => some b
  | _ => none

/-- `ns.NetNS`, an open handle on a network namespace. -/
structure NetNS where
  path : String
  fd : Nat
  deriving DecidableEq, Repr

/-- `types.IPConfig`. -/
structure IPConfig where
  IP : String
  Gateway : String
  Routes : List String
  deriving DecidableEq, Repr

/-- `types.Result`; `IP4` and `IP6` are pointers, `none` is `nil`. -/
structure Result where
  IP4 : Option IPConfig
  IP6 : Option IPConfig
  DNS : List String
  deriving DecidableEq, Repr

/-- The `IPAM` member of `types.NetConf`; `Type_` is the Go field `Type`. -/
structure IPAMConf where
  Type_ : String
  deriving DecidableEq, Repr

/-- `types.NetConf`; `Type_` is the Go field `Type`. -/
structure NetConf where
  Name : String
  Type_ : String
  IPAM : IPAMConf
  deriving DecidableEq, Repr

/-- `skel.CmdArgs`. -/
structure CmdArgs where
  ContainerID : String
  Netns : String
  IfName : String
  Args : String
  Path : String
  StdinData : Bytes
  deriving DecidableEq, Repr

/-- `netlink.FAMILY_V4` (`syscall.AF_INET`). -/
def FAMILY_V4 : Int := 2

/-- main.go:24. -/
def dockerBridgeName : String := "docker0"

/-- One recorded call into an external library, with arguments and result. -/
inductive Event where
  /-- `netlink.LinkByName(name)` -/
  | LinkByName (name : String) (res : Res Link)
  /-- `ns.GetNS(path)` -/
  | GetNS (path : String) (res : Res NetNS)
  /-- `netns.Do`: switching into `netns`; on success the callback runs with the
  handle of the namespace that was left -/
  | NsEnter (netns : NetNS) (res : Res NetNS)
  /-- `netns.Do`: switching back after the callback returned -/
  | NsLeave (netns : NetNS)
  /-- `netns.Close()` -/
  | NsClose (netns : NetNS)
  /-- `ip.SetupVeth(ifName, mtu, hostNS)`, giving `(hostVeth, contVeth)` -/
  | SetupVeth (ifName : String) (mtu : Int) (hostNS : NetNS) (res : Res (Link × Link))
  /-- `netlink.LinkSetMaster(link, master)` -/
  | LinkSetMaster (link : Link) (master : Bridge) (res : Res Unit)
  /-- `netlink.LinkSetHairpin(link, mode)` -/
  | LinkSetHairpin (link : Link) (mode : Bool) (res : Res Unit)
  /-- `ipam.ExecAdd(plugin, netconf)` -/
  | ExecAdd (plugin : String) (netconf : Bytes) (res : Res Result)
  /-- `ipam.ConfigureIface(ifName, result)` -/
  | ConfigureIface (ifName : String) (result : Result) (res : Res Unit)
  /-- `result.Print()` -/
  | Print (result : Result) (res : Res Unit)
  /-- `ipam.ExecDel(plugin, netconf)` -/
  | ExecDel (plugin : String) (netconf : Bytes) (res : Res Unit)
  /-- `ip.DelLinkByNameAddr(ifName, family)` -/
  | DelLinkByNameAddr (ifName : String) (family : Int) (res : Res String)
  deriving DecidableEq, Repr

/-- One line written to the diagnostic log; the operands of the `%#v` verbs
are kept as values. -/
inductive LogLine where
  | cmdAddInvoked
  | cmdDelInvoked
  | args (a : CmdArgs)
  | netconf (n : NetConf)
  | br (b : Bridge)
  | setupVeth (netns : NetNS) (br : Bridge) (ifName : String) (mtu : Int) (hairpinMode : Bool)
  | teardownVeth (netns : String) (ifName : String)
  | ipamType (t : String)
  | ipamResult (r : Result)
  | ip4 (c : Option IPConfig)
  deriving DecidableEq, Repr

/-- The external libraries, over a world `σ`.  Every function takes the world
and gives back its result and the world it leaves.  `ipam.ExecAdd` gives a
non-nil `*types.Result` when it succeeds; the errors of `netns.Close()` and of
the switch back out of a namespace are not looked at by the program and have
no result here. -/
structure Collab (σ : Type) where
  /-- `json.Unmarshal(bytes, &types.NetConf{})` -/
  jsonUnmarshal : Bytes → Res NetConf
  LinkByName : String → σ → Res Link × σ
  GetNS : String → σ → Res NetNS × σ
  nsEnter : NetNS → σ → Res NetNS × σ
  nsLeave : NetNS → σ → σ
  nsClose : NetNS → σ → σ
  SetupVeth : String → Int → NetNS → σ → Res (Link × Link) × σ
  LinkSetMaster : Link → Bridge → σ → Res Unit × σ
  LinkSetHairpin : Link → Bool → σ → Res Unit × σ
  ExecAdd : String → Bytes → σ → Res Result × σ
  ConfigureIface : String → Result → σ → Res Unit × σ
  Print : Result → σ → Res Unit × σ
  ExecDel : String → Bytes → σ → Res Unit × σ
  DelLinkByNameAddr : String → Int → σ → Res String × σ

/-- What a run of a function leaves behind: its return value, the library calls
it made in order, the log lines it wrote, and the world afterwards. -/
structure Outcome (σ : Type) (α : Type) where
  ret : α
  calls : List Event
  log : List LogLine
  world : σ

section Program

variable {σ : Type}

/-! ## config.go -/

/-- config.go:10 `LoadNetConf`. -/
def LoadNetConf (K : Collab σ) (bytes : Bytes) : Except Error NetConf :=
  match K.jsonUnmarshal bytes with
  | .err e => .error (.failedToLoadNetconf e)
  | .ok n => .ok n

/-! ## Library helpers of package `ns` -/

/-- The method `netns.Do(toRun)` of package `ns`: switch into `netns`, run
`toRun` with the handle of the namespace that was left, switch back, and return
what `toRun` returned.  When the switch fails `toRun` is not run.  The value
`α` carries the variables the Go closure assigns. -/
def NetNS.Do {α : Type} (K : Collab σ) (netns : NetNS)
    (toRun : NetNS → σ → Outcome σ (Except Error α)) (s : σ) :
    Outcome σ (Except Error α) :=
  let e := K.nsEnter netns s
  match e.1 with
  | .err c => ⟨.error (.ext c), [.NsEnter netns (.err c)], [], e.2⟩
  | .ok hostNS =>
    let r := toRun hostNS e.2
    ⟨r.ret, .NsEnter netns (.ok hostNS) :: r.calls ++ [.NsLeave netns], r.log,
      K.nsLeave netns r.world⟩

/-- The function `ns.WithNetNSPath(nspath, toRun)` of package `ns`:
`GetNS`, `defer Close`, `Do`. -/
def WithNetNSPath {α : Type} (K : Collab σ) (nspath : String)
    (toRun : NetNS → σ → Outcome σ (Except Error α)) (s : σ) :
    Outcome σ (Except Error α) :=
  let g := K.GetNS nspath s
  match g.1 with
  | .err c => ⟨.error (.ext c), [.GetNS nspath (.err c)], [], g.2⟩
  | .ok netns =>
    let r := NetNS.Do K netns toRun g.2
    ⟨r.ret, .GetNS nspath (.ok netns) :: r.calls ++ [.NsClose netns], r.log,
      K.nsClose netns r.world⟩

/-! ## main.go -/

/-- main.go:33 `bridgeByName`. -/
def bridgeByName (K : Collab σ) (name : String) (s : σ) :
    Outcome σ (Except Error (Option Bridge)) :=
  let r := K.LinkByName name s
  match r.1 with
  | .err c => ⟨.error (.couldNotLookup name c), [.LinkByName name (.err c)], [], r.2⟩
  | .ok l =>
    match l.asBridge with
    | none => ⟨.error (.notABridge name), [.LinkByName name (.ok l)], [], r.2⟩
    | some br => ⟨.ok (some br), [.LinkByName name (.ok l)], [], r.2⟩

/-- main.go:45 `setupVeth`. -/
def setupVeth (K : Collab σ) (netns : NetNS) (br : Bridge) (ifName : String) (mtu : Int)
    (hairpinMode : Bool) (s : σ) : Outcome σ (Option Error) :=
  let lg := [LogLine.setupVeth netns br ifName mtu hairpinMode]
  -- the closure assigns `hostVethName`
  let d := NetNS.Do K netns (fun hostNS s1 =>
    let v := K.SetupVeth ifName mtu hostNS s1
    match v.1 with
    | .err c => ⟨.error (.ext c), [.SetupVeth ifName mtu hostNS (.err c)], [], v.2⟩
    | .ok (hostVeth, contVeth) =>
      ⟨.ok hostVeth.Attrs.Name, [.SetupVeth ifName mtu hostNS (.ok (hostVeth, contVeth))], [],
        v.2⟩) s
  match d.ret with
  | .error err => ⟨some err, d.calls, lg ++ d.log, d.world⟩
  | .ok hostVethName =>
    -- need to lookup hostVeth again as its index has changed during ns move
    let l := K.LinkByName hostVethName d.world
    match l.1 with
    | .err c =>
      ⟨some (.failedToLookup hostVethName c),
        d.calls ++ [.LinkByName hostVethName (.err c)], lg ++ d.log, l.2⟩
    | .ok hostVeth =>
      -- connect host veth end to the bridge
      let m := K.LinkSetMaster hostVeth br l.2
      match m.1 with
      | .err c =>
        ⟨some (.failedToConnect hostVethName br.attrs.Name c),
          d.calls ++ [.LinkByName hostVethName (.ok hostVeth),
            .LinkSetMaster hostVeth br (.err c)], lg ++ d.log, m.2⟩
      | .ok () =>
        -- set hairpin mode
        let h := K.LinkSetHairpin hostVeth hairpinMode m.2
        match h.1 with
        | .err c =>
          ⟨some (.failedHairpin hostVethName c),
            d.calls ++ [.LinkByName hostVethName (.ok hostVeth),
              .LinkSetMaster hostVeth br (.ok ()),
              .LinkSetHairpin hostVeth hairpinMode (.err c)], lg ++ d.log, h.2⟩
        | .ok () =>
          ⟨none,
            d.calls ++ [.LinkByName hostVethName (.ok hostVeth),
              .LinkSetMaster hostVeth br (.ok ()),
              .LinkSetHairpin hostVeth hairpinMode (.ok ())], lg ++ d.log, h.2⟩

/-- main.go:84 `teardownVeth`. -/
def teardownVeth (K : Collab σ) (netns : String) (ifName : String) (s : σ) :
    Outcome σ (Option Error) :=
  let lg := [LogLine.teardownVeth netns ifName]
  -- the closure assigns `ipn`
  let w := WithNetNSPath K netns (fun _ s1 =>
    let d := K.DelLinkByNameAddr ifName FAMILY_V4 s1
    match d.1 with
    | .err c => ⟨.error (.ext c), [.DelLinkByNameAddr ifName FAMILY_V4 (.err c)], [], d.2⟩
    | .ok ipn => ⟨.ok ipn, [.DelLinkByNameAddr ifName FAMILY_V4 (.ok ipn)], [], d.2⟩) s
  match w.ret with
  | .error err => ⟨some err, w.calls, lg ++ w.log, w.world⟩
  | .ok _ => ⟨none, w.calls, lg ++ w.log, w.world⟩

/-- main.go:141-170, the part of `cmdAdd` that runs under `defer netns.Close()`. -/
def cmdAddInNetns (K : Collab σ) (args : CmdArgs) (n : NetConf) (br : Bridge) (netns : NetNS)
    (s : σ) : Outcome σ (Option Error) :=
  let v := setupVeth K netns br args.IfName 1400 false s
  match v.ret with
  | some err => ⟨some err, v.calls, v.log, v.world⟩
  | none =>
    -- run the IPAM plugin and get back the config to apply
    let a := K.ExecAdd n.IPAM.Type_ args.StdinData v.world
    let lg1 := v.log ++ [LogLine.ipamType n.IPAM.Type_]
    match a.1 with
    | .err c =>
      ⟨some (.ext c), v.calls ++ [.ExecAdd n.IPAM.Type_ args.StdinData (.err c)], lg1, a.2⟩
    | .ok result =>
      let calls1 := v.calls ++ [.ExecAdd n.IPAM.Type_ args.StdinData (.ok result)]
      let lg2 := lg1 ++ [LogLine.ipamResult result, LogLine.ip4 result.IP4]
      match result.IP4 with
      | none => ⟨some .missingIPv4, calls1, lg2, a.2⟩
      | some _ =>
        -- Setup the IP address on the interface
        let d := NetNS.Do K netns (fun _ s1 =>
          let c := K.ConfigureIface args.IfName result s1
          match c.1 with
          | .err e =>
            ⟨.error (.ext e), [.ConfigureIface args.IfName result (.err e)], [], c.2⟩
          | .ok () => ⟨.ok (), [.ConfigureIface args.IfName result (.ok ())], [], c.2⟩) a.2
        match d.ret with
        | .error err => ⟨some err, calls1 ++ d.calls, lg2 ++ d.log, d.world⟩
        | .ok () =>
          let p := K.Print result d.world
          match p.1 with
          | .err e =>
            ⟨some (.ext e), calls1 ++ d.calls ++ [.Print result (.err e)], lg2 ++ d.log, p.2⟩
          | .ok () =>
            ⟨none, calls1 ++ d.calls ++ [.Print result (.ok ())], lg2 ++ d.log, p.2⟩

/-- main.go:103 `cmdAdd`.  `logOk` tells whether `os.OpenFile(logFile, ...)`
succeeded. -/
def cmdAdd (K : Collab σ) (logOk : Bool) (args : CmdArgs) (s : σ) : Outcome σ (Option Error) :=
  let sink := fun (ls : List LogLine) => if logOk then ls else []
  let lg0 := [LogLine.cmdAddInvoked, LogLine.args args]
  match LoadNetConf K args.StdinData with
  | .error err => ⟨some err, [], sink lg0, s⟩
  | .ok n =>
    let lg1 := lg0 ++ [LogLine.netconf n]
    -- Make sure the "docker0" bridge exists
    let b := bridgeByName K dockerBridgeName s
    match b.ret with
    | .error err => ⟨some err, b.calls, sink (lg1 ++ b.log), b.world⟩
    | .ok none => ⟨some (.bridgeMissing dockerBridgeName), b.calls, sink (lg1 ++ b.log), b.world⟩
    | .ok (some br) =>
      let lg2 := lg1 ++ b.log ++ [LogLine.br br]
      if args.Netns = "" then
        ⟨none, b.calls, sink lg2, b.world⟩
      else
        let g := K.GetNS args.Netns b.world
        match g.1 with
        | .err c =>
          ⟨some (.failedToOpenNetns args.Netns c), b.calls ++ [.GetNS args.Netns (.err c)],
            sink lg2, g.2⟩
        | .ok netns =>
          let r := cmdAddInNetns K args n br netns g.2
          -- defer netns.Close()
          ⟨r.ret, b.calls ++ [.GetNS args.Netns (.ok netns)] ++ r.calls ++ [.NsClose netns],
            sink (lg2 ++ r.log), K.nsClose netns r.world⟩

/-- main.go:173 `cmdDel`.  `logOk` tells whether `os.OpenFile(logFile, ...)`
succeeded. -/
def cmdDel (K : Collab σ) (logOk : Bool) (args : CmdArgs) (s : σ) : Outcome σ (Option Error) :=
  let sink := fun (ls : List LogLine) => if logOk then ls else []
  let lg0 := [LogLine.cmdDelInvoked, LogLine.args args]
  match LoadNetConf K args.StdinData with
  | .error err => ⟨some err, [], sink lg0, s⟩
  | .ok n =>
    let d := K.ExecDel n.IPAM.Type_ args.StdinData s
    match d.1 with
    | .err c => ⟨some (.ext c), [.ExecDel n.IPAM.Type_ args.StdinData (.err c)], sink lg0, d.2⟩
    | .ok () =>
      let calls1 := [Event.ExecDel n.IPAM.Type_ args.StdinData (.ok ())]
      if args.Netns = "" then
        ⟨none, calls1, sink lg0, d.2⟩
      else
        -- the error of teardownVeth is dropped
        let t := teardownVeth K args.Netns args.IfName d.2
        ⟨none, calls1 ++ t.calls, sink (lg0 ++ t.log), t.world⟩

end Program

/-! ## Observations on a list of calls -/

/-- The library function an event is a call of. -/
inductive Op where
  | LinkByName | GetNS | NsEnter | NsLeave | NsClose | SetupVeth | LinkSetMaster
  | LinkSetHairpin | ExecAdd | ConfigureIface | Print | ExecDel | DelLinkByNameAddr
  deriving DecidableEq, Repr

/-- The library function of a recorded call. -/
def Event.op : Event → Op
  | .LinkByName _ _ => .LinkByName
  | .GetNS _ _ => .GetNS
  | .NsEnter _ _ => .NsEnter
  | .NsLeave _ => .NsLeave
  | .NsClose _ => .NsClose
  | .SetupVeth _ _ _ _ => .SetupVeth
  | .LinkSetMaster _ _ _ => .LinkSetMaster
  | .LinkSetHairpin _ _ _ => .LinkSetHairpin
  | .ExecAdd _ _ _ => .ExecAdd
  | .ConfigureIface _ _ _ => .ConfigureIface
  | .Print _ _ => .Print
  | .ExecDel _ _ _ => .ExecDel
  | .DelLinkByNameAddr _ _ _ => .DelLinkByNameAddr

/-- The error a recorded call ended with, `none` when it succeeded. -/
def Event.err? : Event → Option ExtErr
  | .LinkByName _ r => r.err?
  | .GetNS _ r => r.err?
  | .NsEnter _ r => r.err?
  | .NsLeave _ => none
  | .NsClose _ => none
  | .SetupVeth _ _ _ r => r.err?
  | .LinkSetMaster _ _ r => r.err?
  | .LinkSetHairpin _ _ r => r.err?
  | .ExecAdd _ _ r => r.err?
  | .ConfigureIface _ _ r => r.err?
  | .Print _ r => r.err?
  | .ExecDel _ _ r => r.err?
  | .DelLinkByNameAddr _ _ r => r.err?

/-- The name asked for by the first call, when that call is a link lookup:
the bridge `cmdAdd` looks up. -/
def bridgeLookedUp (calls : List Event) : Option String :=
  match calls.head? with
  | some (.LinkByName name _) => some name
  | _ => none

/-- The MTU of every veth creation among the calls. -/
def vethMtus (calls : List Event) : List Int :=
  calls.filterMap fun e =>
    match e with
    | .SetupVeth _ mtu _ _ => some mtu
    | _ => none

/-- The interface name of every veth creation among the calls. -/
def vethNames (calls : List Event) : List String :=
  calls.filterMap fun e =>
    match e with
    | .SetupVeth ifName _ _ _ => some ifName
    | _ => none

/-- The mode of every hairpin call among the calls. -/
def hairpinModes (calls : List Event) : List Bool :=
  calls.filterMap fun e =>
    match e with
    | .LinkSetHairpin _ mode _ => some mode
    | _ => none

/-- The path of every namespace opened among the calls. -/
def netnsOpened (calls : List Event) : List String :=
  calls.filterMap fun e =>
    match e with
    | .GetNS path _ => some path
    | _ => none

/-- A property of every way to cut a list into the elements before a position,
the element there, and the elements after; `acc` holds what was already
passed. -/
def AllSplits {α : Type} (P : List α → α → List α → Prop) : List α → List α → Prop
  | _, [] => True
  | acc, x :: xs => P acc x xs ∧ AllSplits P (acc ++ [x]) xs

/-! ## A concrete host

A small model of the libraries, used to run the program on concrete inputs. -/

/-- The state of the model host. -/
structure Host where
  /-- interfaces of the host namespace -/
  links : List Link
  /-- paths of the namespaces that can be opened -/
  netnsPaths : List String
  /-- names of the interfaces inside the container namespace -/
  contLinks : List String
  /-- number of addresses currently leased by the allocation plugin -/
  leases : Nat
  /-- documents written to standard output -/
  printed : List Result
  deriving DecidableEq, Repr

/-- The allocation result of the model plugin `host-local`. -/
def hostLocalResult : Result :=
  ⟨some ⟨"10.0.0.5/24", "10.0.0.1", ["0.0.0.0/0"]⟩, none, []⟩

/-- The model libraries.  The configuration document is read from its first
byte: `1` selects the plugin `host-local`, `2` a plugin `v6-only` that answers
without IPv4 configuration, any other byte a plugin that is not installed; the
empty document does not parse. -/
def modelHost : Collab Host where
  jsonUnmarshal := fun bytes =>
    match bytes with
    | [] => .err "unexpected end of JSON input"
    | 1 :: _ => .ok ⟨"k8s", "k8s-cni", ⟨"host-local"⟩⟩
    | 2 :: _ => .ok ⟨"k8s", "k8s-cni", ⟨"v6-only"⟩⟩
    | _ :: _ => .ok ⟨"k8s", "k8s-cni", ⟨"absent"⟩⟩
  LinkByName := fun name w =>
    match w.links.find? (fun l => l.Attrs.Name = name) with
    | some l => (.ok l, w)
    | none => (.err "Link not found", w)
  GetNS := fun path w =>
    if path ∈ w.netnsPaths then (.ok ⟨path, 3⟩, w) else (.err "no such file or directory", w)
  nsEnter := fun _ w => (.ok ⟨"/proc/self/ns/net", 4⟩, w)
  nsLeave := fun _ w => w
  nsClose := fun _ w => w
  SetupVeth := fun ifName _ _ w =>
    if ifName ∈ w.contLinks then (.err "file exists", w)
    else
      (.ok (.veth ⟨"veth0", 7⟩, .veth ⟨ifName, 2⟩),
        { w with links := w.links ++ [.veth ⟨"veth0", 8⟩], contLinks := ifName :: w.contLinks })
  LinkSetMaster := fun _ _ w => (.ok (), w)
  LinkSetHairpin := fun _ _ w => (.ok (), w)
  ExecAdd := fun plugin _ w =>
    if plugin = "host-local" then (.ok hostLocalResult, { w with leases := w.leases + 1 })
    else if plugin = "v6-only" then (.ok ⟨none, some ⟨"fd00::5/64", "fd00::1", []⟩, []⟩, w)
    else (.err "failed to find plugin in path", w)
  ConfigureIface := fun ifName _ w =>
    if ifName ∈ w.contLinks then (.ok (), w) else (.err "failed to lookup", w)
  Print := fun r w => (.ok (), { w with printed := w.printed ++ [r] })
  ExecDel := fun plugin _ w =>
    if plugin = "host-local" then (.ok (), { w with leases := w.leases - 1 })
    else (.err "failed to find plugin in path", w)
  DelLinkByNameAddr := fun ifName _ w =>
    if ifName ∈ w.contLinks then
      (.ok "10.0.0.5/24",
        { w with contLinks := w.contLinks.erase ifName,
                 links := w.links.filter (fun l => l.Attrs.Name ≠ "veth0") })
    else (.err "failed to lookup", w)

/-- A host with the bridge `docker0` and two container namespaces. -/
def hostWithBridge : Host :=
  ⟨[.device ⟨"eth0", 2⟩, .bridge ⟨⟨"docker0", 3⟩⟩],
    ["/var/run/netns/ns1", "/var/run/netns/ns2"], [], 0, []⟩

/-- A host without the bridge `docker0`. -/
def hostNoBridge : Host :=
  ⟨[.device ⟨"eth0", 2⟩], ["/var/run/netns/ns1"], [], 0, []⟩

/-- A host on which `docker0` names a device that is not a bridge. -/
def hostWrongKind : Host :=
  ⟨[.device ⟨"docker0", 2⟩], ["/var/run/netns/ns1"], [], 0, []⟩

/-- The model host after a complete ADD of `eth0` into namespace `ns1`: the
veth pair exists and one address is leased. -/
def hostAfterAdd : Host :=
  ⟨[.device ⟨"eth0", 2⟩, .bridge ⟨⟨"docker0", 3⟩⟩, .veth ⟨"veth0", 8⟩],
    ["/var/run/netns/ns1", "/var/run/netns/ns2"], ["eth0"], 1, [hostLocalResult]⟩

/-- An invocation for the given namespace and interface `eth0`, with the given
configuration document. -/
def argsFor (netns : String) (stdin : Bytes) : CmdArgs :=
  ⟨"c0ffee", netns, "eth0", "", "/opt/cni/bin", stdin⟩

/-! ## Execution paths -/

/-- The calls `setupVeth` makes up to and including a successful veth creation
and the switch back to the host namespace. -/
def vethCreated (netns : NetNS) (ifName : String) (mtu : Int) (hostNS : NetNS)
    (hostVeth contVeth : Link) : List Event :=
  [.NsEnter netns (.ok hostNS), .SetupVeth ifName mtu hostNS (.ok (hostVeth, contVeth)),
    .NsLeave netns]

/-- The calls `setupVeth` makes after a successful veth creation when the
host end is found again, enslaved and its hairpin flag set. -/
def vethAttached (br : Bridge) (hairpinMode : Bool) (hostVethName : String) (hostVeth : Link) :
    List Event :=
  [.LinkByName hostVethName (.ok hostVeth), .LinkSetMaster hostVeth br (.ok ()),
    .LinkSetHairpin hostVeth hairpinMode (.ok ())]

/-- The execution paths of `setupVeth`: return value and calls made. -/
inductive VethPath (netns : NetNS) (br : Bridge) (ifName : String) (mtu : Int)
    (hairpinMode : Bool) : Option Error → List Event → Prop where
  | enterFailed (c : ExtErr) :
      VethPath netns br ifName mtu hairpinMode (some (.ext c)) [.NsEnter netns (.err c)]
  | createFailed (hostNS : NetNS) (c : ExtErr) :
      VethPath netns br ifName mtu hairpinMode (some (.ext c))
        [.NsEnter netns (.ok hostNS), .SetupVeth ifName mtu hostNS (.err c), .NsLeave netns]
  | lookupFailed (hostNS : NetNS) (hv cv : Link) (c : ExtErr) :
      VethPath netns br ifName mtu hairpinMode (some (.failedToLookup hv.Attrs.Name c))
        (vethCreated netns ifName mtu hostNS hv cv ++ [.LinkByName hv.Attrs.Name (.err c)])
  | masterFailed (hostNS : NetNS) (hv cv l : Link) (c : ExtErr) :
      VethPath netns br ifName mtu hairpinMode
        (some (.failedToConnect hv.Attrs.Name br.attrs.Name c))
        (vethCreated netns ifName mtu hostNS hv cv ++
          [.LinkByName hv.Attrs.Name (.ok l), .LinkSetMaster l br (.err c)])
  | hairpinFailed (hostNS : NetNS) (hv cv l : Link) (c : ExtErr) :
      VethPath netns br ifName mtu hairpinMode (some (.failedHairpin hv.Attrs.Name c))
        (vethCreated netns ifName mtu hostNS hv cv ++
          [.LinkByName hv.Attrs.Name (.ok l), .LinkSetMaster l br (.ok ()),
            .LinkSetHairpin l hairpinMode (.err c)])
  | done (hostNS : NetNS) (hv cv l : Link) :
      VethPath netns br ifName mtu hairpinMode none
        (vethCreated netns ifName mtu hostNS hv cv ++
          vethAttached br hairpinMode hv.Attrs.Name l)

/-- The execution paths of `cmdAddInNetns`: return value and calls made. -/
inductive NetnsPath (args : CmdArgs) (n : NetConf) (br : Bridge) (netns : NetNS) :
    Option Error → List Event → Prop where
  | vethFailed (err : Error) (cs : List Event)
      (hv : VethPath netns br args.IfName 1400 false (some err) cs) :
      NetnsPath args n br netns (some err) cs
  | allocFailed (hostNS : NetNS) (hv cv l : Link) (c : ExtErr) :
      NetnsPath args n br netns (some (.ext c))
        (vethCreated netns args.IfName 1400 hostNS hv cv ++
          vethAttached br false hv.Attrs.Name l ++
          [.ExecAdd n.IPAM.Type_ args.StdinData (.err c)])
  | noIPv4 (hostNS : NetNS) (hv cv l : Link) (r : Result) (h4 : r.IP4 = none) :
      NetnsPath args n br netns (some .missingIPv4)
        (vethCreated netns args.IfName 1400 hostNS hv cv ++
          vethAttached br false hv.Attrs.Name l ++
          [.ExecAdd n.IPAM.Type_ args.StdinData (.ok r)])
  | enterFailed (hostNS : NetNS) (hv cv l : Link) (r : Result) (h4 : r.IP4 ≠ none)
      (c : ExtErr) :
      NetnsPath args n br netns (some (.ext c))
        (vethCreated netns args.IfName 1400 hostNS hv cv ++
          vethAttached br false hv.Attrs.Name l ++
          [.ExecAdd n.IPAM.Type_ args.StdinData (.ok r), .NsEnter netns (.err c)])
  | configureFailed (hostNS : NetNS) (hv cv l : Link) (r : Result) (h4 : r.IP4 ≠ none)
      (hostNS2 : NetNS) (c : ExtErr) :
      NetnsPath args n br netns (some (.ext c))
        (vethCreated netns args.IfName 1400 hostNS hv cv ++
          vethAttached br false hv.Attrs.Name l ++
          [.ExecAdd n.IPAM.Type_ args.StdinData (.ok r), .NsEnter netns (.ok hostNS2),
            .ConfigureIface args.IfName r (.err c), .NsLeave netns])
  | printFailed (hostNS : NetNS) (hv cv l : Link) (r : Result) (h4 : r.IP4 ≠ none)
      (hostNS2 : NetNS) (c : ExtErr) :
      NetnsPath args n br netns (some (.ext c))
        (vethCreated netns args.IfName 1400 hostNS hv cv ++
          vethAttached br false hv.Attrs.Name l ++
          [.ExecAdd n.IPAM.Type_ args.StdinData (.ok r), .NsEnter netns (.ok hostNS2),
            .ConfigureIface args.IfName r (.ok ()), .NsLeave netns, .Print r (.err c)])
  | done (hostNS : NetNS) (hv cv l : Link) (r : Result) (h4 : r.IP4 ≠ none)
      (hostNS2 : NetNS) :
      NetnsPath args n br netns none
        (vethCreated netns args.IfName 1400 hostNS hv cv ++
          vethAttached br false hv.Attrs.Name l ++
          [.ExecAdd n.IPAM.Type_ args.StdinData (.ok r), .NsEnter netns (.ok hostNS2),
            .ConfigureIface args.IfName r (.ok ()), .NsLeave netns, .Print r (.ok ())])

/-- The execution paths of `cmdAdd`: return value and calls made, with the
answers of the configuration parser and of the bridge lookup that select the
path. -/
inductive AddPath {σ : Type} (K : Collab σ) (args : CmdArgs) (s : σ) :
    Option Error → List Event → Prop where
  | configFailed (c : ExtErr) (hn : K.jsonUnmarshal args.StdinData = .err c) :
      AddPath K args s (some (.failedToLoadNetconf c)) []
  | lookupFailed (n : NetConf) (c : ExtErr) (hn : K.jsonUnmarshal args.StdinData = .ok n)
      (hl : (K.LinkByName dockerBridgeName s).1 = .err c) :
      AddPath K args s (some (.couldNotLookup dockerBridgeName c))
        [.LinkByName dockerBridgeName (.err c)]
  | notABridge (n : NetConf) (l : Link) (hn : K.jsonUnmarshal args.StdinData = .ok n)
      (hl : (K.LinkByName dockerBridgeName s).1 = .ok l) (hb : l.asBridge = none) :
      AddPath K args s (some (.notABridge dockerBridgeName))
        [.LinkByName dockerBridgeName (.ok l)]
  | noNetns (n : NetConf) (l : Link) (br : Bridge)
      (hn : K.jsonUnmarshal args.StdinData = .ok n)
      (hl : (K.LinkByName dockerBridgeName s).1 = .ok l) (hb : l.asBridge = some br)
      (he : args.Netns = "") :
      AddPath K args s none [.LinkByName dockerBridgeName (.ok l)]
  | openFailed (n : NetConf) (l : Link) (br : Bridge)
      (hn : K.jsonUnmarshal args.StdinData = .ok n)
      (hl : (K.LinkByName dockerBridgeName s).1 = .ok l) (hb : l.asBridge = some br)
      (he : args.Netns ≠ "") (c : ExtErr) :
      AddPath K args s (some (.failedToOpenNetns args.Netns c))
        [.LinkByName dockerBridgeName (.ok l), .GetNS args.Netns (.err c)]
  | inNetns (n : NetConf) (l : Link) (br : Bridge)
      (hn : K.jsonUnmarshal args.StdinData = .ok n)
      (hl : (K.LinkByName dockerBridgeName s).1 = .ok l) (hb : l.asBridge = some br)
      (he : args.Netns ≠ "") (netns : NetNS) (ret : Option Error) (cs : List Event)
      (hp : NetnsPath args n br netns ret cs) :
      AddPath K args s ret
        ([.LinkByName dockerBridgeName (.ok l), .GetNS args.Netns (.ok netns)] ++ cs ++
          [.NsClose netns])

/-! ## Path lemmas -/

theorem setupVeth_path {σ : Type} (K : Collab σ) (netns : NetNS) (br : Bridge)
    (ifName : String) (mtu : Int) (hairpinMode : Bool) (s : σ) :
    VethPath netns br ifName mtu hairpinMode
      (setupVeth K netns br ifName mtu hairpinMode s).ret
      (setupVeth K netns br ifName mtu hairpinMode s).calls := by
  unfold setupVeth NetNS.Do
  cases he : (K.nsEnter netns s).1 with
  | err c => simp only [he]; exact .enterFailed c
  | ok hostNS =>
    simp only [he]
    cases hv : (K.SetupVeth ifName mtu hostNS (K.nsEnter netns s).2).1 with
    | err c => simp only [hv]; exact .createFailed hostNS c
    | ok p =>
      obtain ⟨hostVeth, contVeth⟩ := p
      simp only [hv]
      split
      · exact .lookupFailed hostNS hostVeth contVeth _
      · split
        · exact .masterFailed hostNS hostVeth contVeth _ _
        · split
          · exact .hairpinFailed hostNS hostVeth contVeth _ _
          · exact .done hostNS hostVeth contVeth _

theorem cmdAddInNetns_path {σ : Type} (K : Collab σ) (args : CmdArgs) (n : NetConf)
    (br : Bridge) (netns : NetNS) (s : σ) :
    NetnsPath args n br netns (cmdAddInNetns K args n br netns s).ret
      (cmdAddInNetns K args n br netns s).calls := by
  have hv := setupVeth_path K netns br args.IfName 1400 false s
  unfold cmdAddInNetns NetNS.Do
  generalize setupVeth K netns br args.IfName 1400 false s = v at hv ⊢
  obtain ⟨vret, vcalls, vlog, vworld⟩ := v
  simp only [] at hv ⊢
  cases vret with
  | some err => exact .vethFailed err vcalls hv
  | none =>
    simp only []
    cases hv with
    | done hostNS hv cv l =>
      cases ha : (K.ExecAdd n.IPAM.Type_ args.StdinData vworld).1 with
      | err c => simp only [ha]; exact .allocFailed hostNS hv cv l c
      | ok r =>
        simp only [ha]
        cases h4 : r.IP4 with
        | none => simp only [h4]; exact .noIPv4 hostNS hv cv l r h4
        | some ip =>
          have h4n : r.IP4 ≠ none := by simp [h4]
          simp only [h4]
          cases he : (K.nsEnter netns (K.ExecAdd n.IPAM.Type_ args.StdinData vworld).2).1 with
          | err c => simp only [he]; exact .enterFailed hostNS hv cv l r h4n c
          | ok hostNS2 =>
            simp only [he]
            cases hc : (K.ConfigureIface args.IfName r
                (K.nsEnter netns (K.ExecAdd n.IPAM.Type_ args.StdinData vworld).2).2).1 with
            | err c => simp only [hc]; exact .configureFailed hostNS hv cv l r h4n hostNS2 c
            | ok u =>
              simp only [hc]
              split
              · exact .printFailed hostNS hv cv l r h4n hostNS2 _
              · exact .done hostNS hv cv l r h4n hostNS2

theorem cmdAdd_path {σ : Type} (K : Collab σ) (logOk : Bool) (args : CmdArgs) (s : σ) :
    AddPath K args s (cmdAdd K logOk args s).ret (cmdAdd K logOk args s).calls := by
  unfold cmdAdd LoadNetConf bridgeByName
  cases hn : K.jsonUnmarshal args.StdinData with
  | err c => simp only [hn]; exact .configFailed c hn
  | ok n =>
    simp only [hn]
    cases hl : (K.LinkByName dockerBridgeName s).1 with
    | err c => simp only [hl]; exact .lookupFailed n c hn hl
    | ok l =>
      simp only [hl]
      cases hb : l.asBridge with
      | none => simp only [hb]; exact .notABridge n l hn hl hb
      | some br =>
        simp only [hb]
        by_cases he : args.Netns = ""
        · simp only [he, if_true]; exact .noNetns n l br hn hl hb he
        · simp only [he, if_false]
          cases hg : (K.GetNS args.Netns (K.LinkByName dockerBridgeName s).2).1 with
          | err c => simp only [hg]; exact .openFailed n l br hn hl hb he c
          | ok netns =>
            simp only [hg]
            exact .inNetns n l br hn hl hb he netns _ _ (cmdAddInNetns_path K args n br netns _)

theorem bridgeByName_calls {σ : Type} (K : Collab σ) (name : String) (s : σ) :
    (bridgeByName K name s).calls = [.LinkByName name (K.LinkByName name s).1] ∧
      (bridgeByName K name s).world = (K.LinkByName name s).2 := by
  unfold bridgeByName
  cases hl : (K.LinkByName name s).1 with
  | err c => simp only [hl, and_self]
  | ok l =>
    simp only [hl]
    cases hb : l.asBridge <;> simp only [hb, and_self]

theorem allSplits_iff {α : Type} (P : List α → α → List α → Prop) (acc cs : List α) :
    AllSplits P acc cs ↔ ∀ pre e post, cs = pre ++ e :: post → P (acc ++ pre) e post := by
  induction cs generalizing acc with
  | nil => simp [AllSplits]
  | cons x xs ih =>
    simp only [AllSplits, ih]
    constructor
    · rintro ⟨h0, h1⟩ pre e post hsplit
      cases pre with
      | nil =>
        simp only [List.nil_append, List.cons.injEq] at hsplit
        obtain ⟨rfl, rfl⟩ := hsplit
        simpa using h0
      | cons y ys =>
        simp only [List.cons_append, List.cons.injEq] at hsplit
        obtain ⟨rfl, rfl⟩ := hsplit
        simpa using h1 ys e post rfl
    · intro h
      refine ⟨by simpa using h [] x xs rfl, fun pre e post hsplit => ?_⟩
      subst hsplit
      simpa using h (x :: pre) e post rfl

theorem allSplits_nil {α : Type} (P : List α → α → List α → Prop) (cs : List α)
    (h : AllSplits P [] cs) (pre : List α) (e : α) (post : List α)
    (hsplit : cs = pre ++ e :: post) : P pre e post := by
  simpa using (allSplits_iff P [] cs).1 h pre e post hsplit

/-- The model host `hostAfterAdd` is what a complete ADD leaves behind. -/
theorem hostAfterAdd_eq :
    (cmdAdd modelHost true (argsFor "/var/run/netns/ns1" [1]) hostWithBridge).world =
      hostAfterAdd := rfl

/-! ## ADD -/

/-- C1: when the configuration document loads and `bridgeByName` fails for
`docker0` (no such device, or a device that is not a bridge), `cmdAdd` returns
that error, the only recorded call is the bridge lookup itself (so no namespace
is opened, no veth created, nothing enslaved, no address allocated, no
interface configured), and the world is the one the lookup left: a read-only
lookup leaves the interfaces unchanged. -/
theorem cmdAdd_bridge_error_stops {σ : Type} (K : Collab σ) (logOk : Bool) (args : CmdArgs)
    (s : σ) (n : NetConf) (e : Error)
    (hconf : LoadNetConf K args.StdinData = .ok n)
    (hbr : (bridgeByName K dockerBridgeName s).ret = .error e) :
    (cmdAdd K logOk args s).ret = some e ∧
      (cmdAdd K logOk args s).calls =
        [.LinkByName dockerBridgeName (K.LinkByName dockerBridgeName s).1] ∧
      (cmdAdd K logOk args s).world = (K.LinkByName dockerBridgeName s).2 ∧
      ((K.LinkByName dockerBridgeName s).2 = s → (cmdAdd K logOk args s).world = s) := by
  have hc := bridgeByName_calls K dockerBridgeName s
  have key : (cmdAdd K logOk args s).ret = some e ∧
      (cmdAdd K logOk args s).calls = (bridgeByName K dockerBridgeName s).calls ∧
      (cmdAdd K logOk args s).world = (bridgeByName K dockerBridgeName s).world := by
    unfold cmdAdd
    simp only [hconf, hbr, and_self]
  refine ⟨key.1, key.2.1.trans hc.1, key.2.2.trans hc.2, fun h => ?_⟩
  rw [key.2.2, hc.2, h]

/-- Witness of C1 on the model host, once without `docker0` and once with a
device `docker0` that is not a bridge: the hypotheses hold, the run fails after
the single lookup and the host is unchanged. -/
theorem cmdAdd_bridge_error_stops_witness :
    ((cmdAdd modelHost true (argsFor "/var/run/netns/ns1" [1]) hostNoBridge).ret =
        some (.couldNotLookup "docker0" "Link not found") ∧
      (cmdAdd modelHost true (argsFor "/var/run/netns/ns1" [1]) hostNoBridge).calls =
        [.LinkByName "docker0" (.err "Link not found")] ∧
      (cmdAdd modelHost true (argsFor "/var/run/netns/ns1" [1]) hostNoBridge).world =
        hostNoBridge) ∧
    ((cmdAdd modelHost true (argsFor "/var/run/netns/ns1" [1]) hostWrongKind).ret =
        some (.notABridge "docker0") ∧
      (cmdAdd modelHost true (argsFor "/var/run/netns/ns1" [1]) hostWrongKind).calls =
        [.LinkByName "docker0" (.ok (.device ⟨"docker0", 2⟩))] ∧
      (cmdAdd modelHost true (argsFor "/var/run/netns/ns1" [1]) hostWrongKind).world =
        hostWrongKind) :=
  have h := cmdAdd_bridge_error_stops modelHost true (argsFor "/var/run/netns/ns1" [1])
    hostNoBridge ⟨"k8s", "k8s-cni", ⟨"host-local"⟩⟩
    (.couldNotLookup "docker0" "Link not found") rfl rfl
  have k := cmdAdd_bridge_error_stops modelHost true (argsFor "/var/run/netns/ns1" [1])
    hostWrongKind ⟨"k8s", "k8s-cni", ⟨"host-local"⟩⟩ (.notABridge "docker0") rfl rfl
  ⟨⟨h.1, h.2.1, h.2.2.2 rfl⟩, ⟨k.1, k.2.1, k.2.2.2 rfl⟩⟩

/-- C2: when the configuration document loads, `bridgeByName` returns the
bridge `docker0` and the target namespace is the empty string, `cmdAdd`
returns success and the bridge lookup is the only recorded call: no namespace
is opened, no veth created, no address allocated, no interface configured and
no result printed. -/
theorem cmdAdd_empty_netns_only_lookup {σ : Type} (K : Collab σ) (logOk : Bool)
    (args : CmdArgs) (s : σ) (n : NetConf) (br : Bridge)
    (hconf : LoadNetConf K args.StdinData = .ok n)
    (hbr : (bridgeByName K dockerBridgeName s).ret = .ok (some br))
    (hns : args.Netns = "") :
    (cmdAdd K logOk args s).ret = none ∧
      (cmdAdd K logOk args s).calls =
        [.LinkByName dockerBridgeName (K.LinkByName dockerBridgeName s).1] ∧
      (cmdAdd K logOk args s).world = (K.LinkByName dockerBridgeName s).2 := by
  have hc := bridgeByName_calls K dockerBridgeName s
  have key : (cmdAdd K logOk args s).ret = none ∧
      (cmdAdd K logOk args s).calls = (bridgeByName K dockerBridgeName s).calls ∧
      (cmdAdd K logOk args s).world = (bridgeByName K dockerBridgeName s).world := by
    unfold cmdAdd
    simp only [hconf, hbr, hns, if_true, and_self]
  exact ⟨key.1, key.2.1.trans hc.1, key.2.2.trans hc.2⟩

/-- Witness of C2 on the model host with `docker0`. -/
theorem cmdAdd_empty_netns_only_lookup_witness :
    (cmdAdd modelHost true (argsFor "" [1]) hostWithBridge).ret = none ∧
      (cmdAdd modelHost true (argsFor "" [1]) hostWithBridge).calls =
        [.LinkByName "docker0" (.ok (.bridge ⟨⟨"docker0", 3⟩⟩))] ∧
      (cmdAdd modelHost true (argsFor "" [1]) hostWithBridge).world = hostWithBridge :=
  cmdAdd_empty_netns_only_lookup modelHost true (argsFor "" [1]) hostWithBridge
    ⟨"k8s", "k8s-cni", ⟨"host-local"⟩⟩ ⟨⟨"docker0", 3⟩⟩ rfl rfl rfl

/-- C3: wherever an `ipam.ExecAdd` call stands in the calls of `cmdAdd`, the
calls before it are exactly: the bridge lookup, the namespace open, and then,
all successful, the veth creation inside the namespace, the re-lookup of the
host end by the name veth creation returned, `LinkSetMaster` of that link to
the bridge and `LinkSetHairpin` on that link. -/
theorem cmdAdd_alloc_after_attach {σ : Type} (K : Collab σ) (logOk : Bool) (args : CmdArgs)
    (s : σ) (pre post : List Event) (p : String) (b : Bytes) (r : Res Result)
    (hsplit : (cmdAdd K logOk args s).calls = pre ++ Event.ExecAdd p b r :: post) :
    ∃ bl br netns hostNS hv cv l,
      bl.asBridge = some br ∧
      pre = [.LinkByName dockerBridgeName (.ok bl), .GetNS args.Netns (.ok netns),
        .NsEnter netns (.ok hostNS), .SetupVeth args.IfName 1400 hostNS (.ok (hv, cv)),
        .NsLeave netns, .LinkByName hv.Attrs.Name (.ok l), .LinkSetMaster l br (.ok ()),
        .LinkSetHairpin l false (.ok ())] := by
  have hp := cmdAdd_path K logOk args s
  generalize (cmdAdd K logOk args s).ret = ret at *
  generalize (cmdAdd K logOk args s).calls = cs at *
  cases hp with
  | inNetns n l br hn hl hb he netns ret cs hp =>
    cases hp with
    | vethFailed err cs hv =>
      cases hv <;> simp [vethCreated, vethAttached, List.cons_eq_append_iff] at hsplit
    | _ =>
      simp [vethCreated, vethAttached, List.cons_eq_append_iff] at hsplit
      rcases hsplit with ⟨_, rfl, _, rfl, _, rfl, _, rfl, _, rfl, _, rfl, _, rfl, _, rfl, rfl, _⟩
      exact ⟨_, _, _, _, _, _, _, hb, rfl⟩
  | _ => simp [List.cons_eq_append_iff] at hsplit

/-- Witness of C3 on the model host: the allocation call of a complete ADD
stands after the eight calls that create and attach the veth. -/
theorem cmdAdd_alloc_after_attach_witness :
    (cmdAdd modelHost true (argsFor "/var/run/netns/ns1" [1]) hostWithBridge).calls =
        [.LinkByName "docker0" (.ok (.bridge ⟨⟨"docker0", 3⟩⟩)),
          .GetNS "/var/run/netns/ns1" (.ok ⟨"/var/run/netns/ns1", 3⟩),
          .NsEnter ⟨"/var/run/netns/ns1", 3⟩ (.ok ⟨"/proc/self/ns/net", 4⟩),
          .SetupVeth "eth0" 1400 ⟨"/proc/self/ns/net", 4⟩
            (.ok (.veth ⟨"veth0", 7⟩, .veth ⟨"eth0", 2⟩)),
          .NsLeave ⟨"/var/run/netns/ns1", 3⟩,
          .LinkByName "veth0" (.ok (.veth ⟨"veth0", 8⟩)),
          .LinkSetMaster (.veth ⟨"veth0", 8⟩) ⟨⟨"docker0", 3⟩⟩ (.ok ()),
          .LinkSetHairpin (.veth ⟨"veth0", 8⟩) false (.ok ())] ++
        Event.ExecAdd "host-local" [1] (.ok hostLocalResult) ::
        [.NsEnter ⟨"/var/run/netns/ns1", 3⟩ (.ok ⟨"/proc/self/ns/net", 4⟩),
          .ConfigureIface "eth0" hostLocalResult (.ok ()),
          .NsLeave ⟨"/var/run/netns/ns1", 3⟩,
          .Print hostLocalResult (.ok ()),
          .NsClose ⟨"/var/run/netns/ns1", 3⟩] ∧
      ∃ bl br netns hostNS hv cv l,
        Link.asBridge bl = some br ∧
        [Event.LinkByName "docker0" (.ok (.bridge ⟨⟨"docker0", 3⟩⟩)),
          .GetNS "/var/run/netns/ns1" (.ok ⟨"/var/run/netns/ns1", 3⟩),
          .NsEnter ⟨"/var/run/netns/ns1", 3⟩ (.ok ⟨"/proc/self/ns/net", 4⟩),
          .SetupVeth "eth0" 1400 ⟨"/proc/self/ns/net", 4⟩
            (.ok (.veth ⟨"veth0", 7⟩, .veth ⟨"eth0", 2⟩)),
          .NsLeave ⟨"/var/run/netns/ns1", 3⟩,
          .LinkByName "veth0" (.ok (.veth ⟨"veth0", 8⟩)),
          .LinkSetMaster (.veth ⟨"veth0", 8⟩) ⟨⟨"docker0", 3⟩⟩ (.ok ()),
          .LinkSetHairpin (.veth ⟨"veth0", 8⟩) false (.ok ())] =
        [.LinkByName dockerBridgeName (.ok bl), .GetNS "/var/run/netns/ns1" (.ok netns),
          .NsEnter netns (.ok hostNS), .SetupVeth "eth0" 1400 hostNS (.ok (hv, cv)),
          .NsLeave netns, .LinkByName hv.Attrs.Name (.ok l), .LinkSetMaster l br (.ok ()),
          .LinkSetHairpin l false (.ok ())] :=
  ⟨rfl, cmdAdd_alloc_after_attach modelHost true (argsFor "/var/run/netns/ns1" [1])
    hostWithBridge _ _ _ _ _ rfl⟩

/-- C4: when the calls of `cmdAdd` hold an `ipam.ExecAdd` that succeeded with a
result whose `IP4` is nil, `cmdAdd` returns the missing-IPv4 error and neither
`ipam.ConfigureIface` nor `result.Print` is among the calls. -/
theorem cmdAdd_no_ipv4_fails {σ : Type} (K : Collab σ) (logOk : Bool) (args : CmdArgs)
    (s : σ) (p : String) (b : Bytes) (r : Result)
    (hmem : Event.ExecAdd p b (.ok r) ∈ (cmdAdd K logOk args s).calls)
    (h4 : r.IP4 = none) :
    (cmdAdd K logOk args s).ret = some .missingIPv4 ∧
      ∀ e ∈ (cmdAdd K logOk args s).calls, e.op ≠ .ConfigureIface ∧ e.op ≠ .Print := by
  have hp := cmdAdd_path K logOk args s
  generalize (cmdAdd K logOk args s).ret = ret at *
  generalize (cmdAdd K logOk args s).calls = cs at *
  cases hp with
  | inNetns n l br hn hl hb he netns ret cs hp =>
    cases hp with
    | vethFailed err cs hv =>
      cases hv <;> simp [vethCreated, vethAttached] at hmem
    | _ => simp_all [vethCreated, vethAttached, Event.op]
  | _ => simp at hmem

/-- Witness of C4 on the model host with the plugin that answers without IPv4
configuration. -/
theorem cmdAdd_no_ipv4_fails_witness :
    Event.ExecAdd "v6-only" [2] (.ok ⟨none, some ⟨"fd00::5/64", "fd00::1", []⟩, []⟩) ∈
        (cmdAdd modelHost true (argsFor "/var/run/netns/ns1" [2]) hostWithBridge).calls ∧
      (cmdAdd modelHost true (argsFor "/var/run/netns/ns1" [2]) hostWithBridge).ret =
        some .missingIPv4 ∧
      ∀ e ∈ (cmdAdd modelHost true (argsFor "/var/run/netns/ns1" [2]) hostWithBridge).calls,
        e.op ≠ .ConfigureIface ∧ e.op ≠ .Print :=
  ⟨by decide,
    cmdAdd_no_ipv4_fails modelHost true (argsFor "/var/run/netns/ns1" [2]) hostWithBridge
      "v6-only" [2] ⟨none, some ⟨"fd00::5/64", "fd00::1", []⟩, []⟩ (by decide) rfl⟩

/-- C7: when `cmdAdd` returns success for a non-empty target namespace, the
configuration parsed to some `n` and the calls are exactly: bridge lookup,
namespace open, veth creation and attachment, one `ipam.ExecAdd` with
`n.IPAM.Type` and the unmodified stdin payload giving a result `r`, then,
between entering and leaving the container namespace, one
`ipam.ConfigureIface` with the requested interface name and `r`, then
`r.Print()`, then the close of the namespace handle. -/
theorem cmdAdd_success_trace {σ : Type} (K : Collab σ) (logOk : Bool) (args : CmdArgs)
    (s : σ) (hret : (cmdAdd K logOk args s).ret = none) (hns : args.Netns ≠ "") :
    ∃ n bl br netns hostNS hv cv l r hostNS2,
      LoadNetConf K args.StdinData = .ok n ∧ bl.asBridge = some br ∧ r.IP4 ≠ none ∧
      (cmdAdd K logOk args s).calls =
        [.LinkByName dockerBridgeName (.ok bl), .GetNS args.Netns (.ok netns),
          .NsEnter netns (.ok hostNS), .SetupVeth args.IfName 1400 hostNS (.ok (hv, cv)),
          .NsLeave netns, .LinkByName hv.Attrs.Name (.ok l), .LinkSetMaster l br (.ok ()),
          .LinkSetHairpin l false (.ok ()),
          .ExecAdd n.IPAM.Type_ args.StdinData (.ok r),
          .NsEnter netns (.ok hostNS2), .ConfigureIface args.IfName r (.ok ()),
          .NsLeave netns,
          .Print r (.ok ()),
          .NsClose netns] := by
  have hp := cmdAdd_path K logOk args s
  generalize (cmdAdd K logOk args s).ret = ret at *
  generalize (cmdAdd K logOk args s).calls = cs at *
  subst hret
  cases hp with
  | noNetns n l br hn hl hb he => exact absurd he hns
  | inNetns n l br hn hl hb he netns ret cs hp =>
    cases hp with
    | done hostNS hv cv l2 r h4 hostNS2 =>
      refine ⟨n, l, br, netns, hostNS, hv, cv, l2, r, hostNS2, ?_, hb, h4, ?_⟩
      · simp only [LoadNetConf, hn]
      · simp [vethCreated, vethAttached]

/-- Witness of C7 on the model host: a complete ADD into namespace `ns1`. -/
theorem cmdAdd_success_trace_witness :
    (cmdAdd modelHost true (argsFor "/var/run/netns/ns1" [1]) hostWithBridge).ret = none ∧
      (argsFor "/var/run/netns/ns1" [1]).Netns ≠ "" ∧
      ∃ n bl br netns hostNS hv cv l r hostNS2,
        LoadNetConf modelHost (argsFor "/var/run/netns/ns1" [1]).StdinData = .ok n ∧
        Link.asBridge bl = some br ∧ Result.IP4 r ≠ none ∧
        (cmdAdd modelHost true (argsFor "/var/run/netns/ns1" [1]) hostWithBridge).calls =
          [.LinkByName dockerBridgeName (.ok bl),
            .GetNS (argsFor "/var/run/netns/ns1" [1]).Netns (.ok netns),
            .NsEnter netns (.ok hostNS),
            .SetupVeth (argsFor "/var/run/netns/ns1" [1]).IfName 1400 hostNS (.ok (hv, cv)),
            .NsLeave netns, .LinkByName hv.Attrs.Name (.ok l), .LinkSetMaster l br (.ok ()),
            .LinkSetHairpin l false (.ok ()),
            .ExecAdd n.IPAM.Type_ (argsFor "/var/run/netns/ns1" [1]).StdinData (.ok r),
            .NsEnter netns (.ok hostNS2),
            .ConfigureIface (argsFor "/var/run/netns/ns1" [1]).IfName r (.ok ()),
            .NsLeave netns,
            .Print r (.ok ()),
            .NsClose netns] :=
  ⟨rfl, by decide,
    cmdAdd_success_trace modelHost true (argsFor "/var/run/netns/ns1" [1]) hostWithBridge rfl
      (by decide)⟩

theorem cmdAdd_no_removal {σ : Type} (K : Collab σ) (logOk : Bool) (args : CmdArgs) (s : σ) :
    ∀ e ∈ (cmdAdd K logOk args s).calls, e.op ≠ .DelLinkByNameAddr ∧ e.op ≠ .ExecDel := by
  have hp := cmdAdd_path K logOk args s
  generalize (cmdAdd K logOk args s).ret = ret at *
  generalize (cmdAdd K logOk args s).calls = cs at *
  cases hp with
  | inNetns n l br hn hl hb he netns ret cs hp =>
    cases hp with
    | vethFailed err cs hv =>
      cases hv <;> simp [vethCreated, vethAttached, Event.op]
    | _ => simp [vethCreated, vethAttached, Event.op]
  | _ => simp [Event.op]

set_option maxHeartbeats 1600000 in
theorem cmdAdd_failed_call {σ : Type} (K : Collab σ) (logOk : Bool) (args : CmdArgs) (s : σ)
    (pre : List Event) (e : Event) (post : List Event) (c : ExtErr)
    (hsplit : (cmdAdd K logOk args s).calls = pre ++ e :: post) (herr : e.err? = some c) :
    (∃ err, (cmdAdd K logOk args s).ret = some err ∧ err.cause? = some c) ∧
      (∀ x ∈ pre, x.err? = none) ∧
      (∀ x ∈ post, x.op = .NsLeave ∨ x.op = .NsClose) ∧
      (∀ x ∈ pre ++ post, x.op ≠ .Print) := by
  have hp := cmdAdd_path K logOk args s
  generalize (cmdAdd K logOk args s).ret = ret at *
  generalize (cmdAdd K logOk args s).calls = cs at *
  have key : AllSplits (fun pre e post => ∀ c, e.err? = some c →
      (∃ err, ret = some err ∧ err.cause? = some c) ∧
      (∀ x ∈ pre, x.err? = none) ∧
      (∀ x ∈ post, x.op = .NsLeave ∨ x.op = .NsClose) ∧
      (∀ x ∈ pre ++ post, x.op ≠ .Print)) [] cs := by
    cases hp with
    | inNetns n l br hn hl hb he netns ret cs hp =>
      cases hp with
      | vethFailed err cs hv =>
        cases hv <;>
          simp only [AllSplits, vethCreated, vethAttached, List.cons_append, List.nil_append,
            List.append_assoc, Event.err?, Res.err?, reduceCtorEq, false_implies, implies_true,
            and_true, true_and] <;>
          simp [Event.op, Event.err?, Res.err?, Error.cause?]
      | _ =>
        simp only [AllSplits, vethCreated, vethAttached, List.cons_append, List.nil_append,
          List.append_assoc, Event.err?, Res.err?, reduceCtorEq, false_implies, implies_true,
          and_true, true_and] <;>
        simp [Event.op, Event.err?, Res.err?, Error.cause?]
    | _ =>
      simp only [AllSplits, List.cons_append, List.nil_append,
          List.append_assoc, Event.err?, Res.err?, reduceCtorEq, false_implies, implies_true,
          and_true, true_and] <;>
      simp [Event.op, Event.err?, Res.err?, Error.cause?]
  exact allSplits_nil _ cs key pre e post hsplit c herr

set_option maxHeartbeats 1600000 in
theorem cmdAdd_no_ipv4_split {σ : Type} (K : Collab σ) (logOk : Bool) (args : CmdArgs) (s : σ)
    (pre : List Event) (p : String) (b : Bytes) (r : Result) (post : List Event)
    (hsplit : (cmdAdd K logOk args s).calls = pre ++ Event.ExecAdd p b (.ok r) :: post)
    (h4 : r.IP4 = none) :
    (cmdAdd K logOk args s).ret = some .missingIPv4 ∧
      (∀ x ∈ pre, x.err? = none) ∧
      (∀ x ∈ post, x.op = .NsClose) ∧
      (∀ x ∈ (cmdAdd K logOk args s).calls, x.op ≠ .Print) := by
  have hp := cmdAdd_path K logOk args s
  generalize (cmdAdd K logOk args s).ret = ret at *
  generalize (cmdAdd K logOk args s).calls = cs at *
  cases hp with
  | inNetns n l br hn hl hb he netns ret cs hp =>
    cases hp with
    | vethFailed err cs hv =>
      cases hv <;> simp [vethCreated, vethAttached, List.cons_eq_append_iff] at hsplit
    | noIPv4 hostNS hv cv l r2 h42 =>
      simp [vethCreated, vethAttached, List.cons_eq_append_iff] at hsplit
      rcases hsplit with ⟨_, rfl, _, rfl, _, rfl, _, rfl, _, rfl, _, rfl, _, rfl, _, rfl, rfl, _, rfl⟩
      simp [vethCreated, vethAttached, Event.op, Event.err?, Res.err?]
    | allocFailed hostNS hv cv l c =>
      simp [vethCreated, vethAttached, List.cons_eq_append_iff] at hsplit
    | _ =>
      simp [vethCreated, vethAttached, List.cons_eq_append_iff] at hsplit
      rcases hsplit with ⟨_, rfl, _, rfl, _, rfl, _, rfl, _, rfl, _, rfl, _, rfl, _, rfl, rfl, ⟨_, _, rfl⟩, _⟩
      contradiction
  | _ => simp [List.cons_eq_append_iff] at hsplit

theorem cmdAdd_error_not_printed {σ : Type} (K : Collab σ) (logOk : Bool) (args : CmdArgs)
    (s : σ) (hret : (cmdAdd K logOk args s).ret ≠ none) :
    ∀ x ∈ (cmdAdd K logOk args s).calls, x.op = .Print → x.err? ≠ none := by
  have hp := cmdAdd_path K logOk args s
  generalize (cmdAdd K logOk args s).ret = ret at *
  generalize (cmdAdd K logOk args s).calls = cs at *
  cases hp with
  | inNetns n l br hn hl hb he netns ret cs hp =>
    cases hp with
    | vethFailed err cs hv =>
      cases hv <;> simp [vethCreated, vethAttached, Event.op]
    | done => exact absurd rfl hret
    | _ => simp [vethCreated, vethAttached, Event.op, Event.err?, Res.err?]
  | _ => simp [Event.op]

theorem cmdAdd_config_failed {σ : Type} (K : Collab σ) (logOk : Bool) (args : CmdArgs)
    (s : σ) (c : ExtErr) (hn : K.jsonUnmarshal args.StdinData = .err c) :
    (cmdAdd K logOk args s).ret = some (.failedToLoadNetconf c) ∧
      (cmdAdd K logOk args s).calls = [] := by
  unfold cmdAdd LoadNetConf
  simp only [hn, and_self]

theorem cmdAdd_not_a_bridge {σ : Type} (K : Collab σ) (logOk : Bool) (args : CmdArgs)
    (s : σ) (n : NetConf) (l : Link) (hn : K.jsonUnmarshal args.StdinData = .ok n)
    (hl : (K.LinkByName dockerBridgeName s).1 = .ok l) (hb : l.asBridge = none) :
    (cmdAdd K logOk args s).ret = some (.notABridge dockerBridgeName) ∧
      (cmdAdd K logOk args s).calls = [.LinkByName dockerBridgeName (.ok l)] := by
  unfold cmdAdd LoadNetConf bridgeByName
  simp only [hn, hl, hb, and_self]

theorem cmdAdd_params {σ : Type} (K : Collab σ) (logOk : Bool) (args : CmdArgs) (s : σ)
    (h : ∃ e ∈ (cmdAdd K logOk args s).calls, e.op = .SetupVeth) :
    bridgeLookedUp (cmdAdd K logOk args s).calls = some "docker0" ∧
      vethMtus (cmdAdd K logOk args s).calls = [1400] ∧
      (∀ m ∈ hairpinModes (cmdAdd K logOk args s).calls, m = false) ∧
      netnsOpened (cmdAdd K logOk args s).calls = [args.Netns] ∧
      vethNames (cmdAdd K logOk args s).calls = [args.IfName] := by
  have hp := cmdAdd_path K logOk args s
  generalize (cmdAdd K logOk args s).ret = ret at *
  generalize (cmdAdd K logOk args s).calls = cs at *
  cases hp with
  | inNetns n l br hn hl hb he netns ret cs hp =>
    cases hp with
    | vethFailed err cs hv =>
      cases hv <;>
        simp_all [vethCreated, vethAttached, Event.op, bridgeLookedUp, vethMtus, hairpinModes,
          netnsOpened, vethNames, dockerBridgeName]
    | _ =>
      simp [vethCreated, vethAttached, Event.op, bridgeLookedUp, vethMtus, hairpinModes,
        netnsOpened, vethNames, dockerBridgeName]
  | _ => simp [Event.op] at h

/-- C8: `cmdAdd` is fail-fast and does not roll back.
(1) No `ip.DelLinkByNameAddr` and no `ipam.ExecDel` is ever among its calls.
(2) When a recorded call failed with error `c`, `cmdAdd` returns an error built
from `c`, every call before it succeeded, only the switch back to the host
namespace and the close of the namespace handle follow it, and no other call
is a `result.Print`.
(3) When the configuration does not parse, the load error is returned and no
call is made.
(4) When `docker0` is not a bridge, the not-a-bridge error is returned and the
lookup is the only call.
(5) When `ipam.ExecAdd` succeeded without IPv4 configuration, the missing-IPv4
error is returned, every call before succeeded, only the close of the
namespace handle follows, and nothing is printed.
(6) Whenever `cmdAdd` returns an error, no `result.Print` succeeded. -/
theorem cmdAdd_fail_fast_no_rollback {σ : Type} (K : Collab σ) (logOk : Bool)
    (args : CmdArgs) (s : σ) :
    (∀ e ∈ (cmdAdd K logOk args s).calls, e.op ≠ .DelLinkByNameAddr ∧ e.op ≠ .ExecDel) ∧
    (∀ pre e post c, (cmdAdd K logOk args s).calls = pre ++ e :: post → e.err? = some c →
      (∃ err, (cmdAdd K logOk args s).ret = some err ∧ err.cause? = some c) ∧
      (∀ x ∈ pre, x.err? = none) ∧
      (∀ x ∈ post, x.op = .NsLeave ∨ x.op = .NsClose) ∧
      (∀ x ∈ pre ++ post, x.op ≠ .Print)) ∧
    (∀ c, K.jsonUnmarshal args.StdinData = .err c →
      (cmdAdd K logOk args s).ret = some (.failedToLoadNetconf c) ∧
      (cmdAdd K logOk args s).calls = []) ∧
    (∀ n l, K.jsonUnmarshal args.StdinData = .ok n →
      (K.LinkByName dockerBridgeName s).1 = .ok l → l.asBridge = none →
      (cmdAdd K logOk args s).ret = some (.notABridge dockerBridgeName) ∧
      (cmdAdd K logOk args s).calls = [.LinkByName dockerBridgeName (.ok l)]) ∧
    (∀ pre p b r post,
      (cmdAdd K logOk args s).calls = pre ++ Event.ExecAdd p b (.ok r) :: post →
      r.IP4 = none →
      (cmdAdd K logOk args s).ret = some .missingIPv4 ∧
      (∀ x ∈ pre, x.err? = none) ∧
      (∀ x ∈ post, x.op = .NsClose) ∧
      (∀ x ∈ (cmdAdd K logOk args s).calls, x.op ≠ .Print)) ∧
    ((cmdAdd K logOk args s).ret ≠ none →
      ∀ x ∈ (cmdAdd K logOk args s).calls, x.op = .Print → x.err? ≠ none) :=
  ⟨cmdAdd_no_removal K logOk args s,
    fun pre e post c hsplit herr => cmdAdd_failed_call K logOk args s pre e post c hsplit herr,
    fun c hn => cmdAdd_config_failed K logOk args s c hn,
    fun n l hn hl hb => cmdAdd_not_a_bridge K logOk args s n l hn hl hb,
    fun pre p b r post hsplit h4 => cmdAdd_no_ipv4_split K logOk args s pre p b r post hsplit h4,
    fun hret => cmdAdd_error_not_printed K logOk args s hret⟩

/-- Witness of C8 on the model host with a plugin that is not installed: the
allocation fails after the veth was created and attached, the error is
returned, only the close of the namespace handle follows, and the veth pair is
still there afterwards. -/
theorem cmdAdd_fail_fast_no_rollback_witness :
    (cmdAdd modelHost true (argsFor "/var/run/netns/ns1" [3]) hostWithBridge).calls =
        [.LinkByName "docker0" (.ok (.bridge ⟨⟨"docker0", 3⟩⟩)),
          .GetNS "/var/run/netns/ns1" (.ok ⟨"/var/run/netns/ns1", 3⟩),
          .NsEnter ⟨"/var/run/netns/ns1", 3⟩ (.ok ⟨"/proc/self/ns/net", 4⟩),
          .SetupVeth "eth0" 1400 ⟨"/proc/self/ns/net", 4⟩
            (.ok (.veth ⟨"veth0", 7⟩, .veth ⟨"eth0", 2⟩)),
          .NsLeave ⟨"/var/run/netns/ns1", 3⟩,
          .LinkByName "veth0" (.ok (.veth ⟨"veth0", 8⟩)),
          .LinkSetMaster (.veth ⟨"veth0", 8⟩) ⟨⟨"docker0", 3⟩⟩ (.ok ()),
          .LinkSetHairpin (.veth ⟨"veth0", 8⟩) false (.ok ())] ++
        Event.ExecAdd "absent" [3] (.err "failed to find plugin in path") ::
        [.NsClose ⟨"/var/run/netns/ns1", 3⟩] ∧
      (Event.ExecAdd "absent" [3] (.err "failed to find plugin in path")).err? =
        some "failed to find plugin in path" ∧
      (cmdAdd modelHost true (argsFor "/var/run/netns/ns1" [3]) hostWithBridge).world.contLinks =
        ["eth0"] ∧
      ((∃ err, (cmdAdd modelHost true (argsFor "/var/run/netns/ns1" [3]) hostWithBridge).ret =
            some err ∧ err.cause? = some "failed to find plugin in path") ∧
        (∀ x ∈ [Event.LinkByName "docker0" (.ok (.bridge ⟨⟨"docker0", 3⟩⟩)),
            .GetNS "/var/run/netns/ns1" (.ok ⟨"/var/run/netns/ns1", 3⟩),
            .NsEnter ⟨"/var/run/netns/ns1", 3⟩ (.ok ⟨"/proc/self/ns/net", 4⟩),
            .SetupVeth "eth0" 1400 ⟨"/proc/self/ns/net", 4⟩
              (.ok (.veth ⟨"veth0", 7⟩, .veth ⟨"eth0", 2⟩)),
            .NsLeave ⟨"/var/run/netns/ns1", 3⟩,
            .LinkByName "veth0" (.ok (.veth ⟨"veth0", 8⟩)),
            .LinkSetMaster (.veth ⟨"veth0", 8⟩) ⟨⟨"docker0", 3⟩⟩ (.ok ()),
            .LinkSetHairpin (.veth ⟨"veth0", 8⟩) false (.ok ())], x.err? = none) ∧
        (∀ x ∈ [Event.NsClose ⟨"/var/run/netns/ns1", 3⟩],
          x.op = .NsLeave ∨ x.op = .NsClose) ∧
        (∀ x ∈ [Event.LinkByName "docker0" (.ok (.bridge ⟨⟨"docker0", 3⟩⟩)),
            .GetNS "/var/run/netns/ns1" (.ok ⟨"/var/run/netns/ns1", 3⟩),
            .NsEnter ⟨"/var/run/netns/ns1", 3⟩ (.ok ⟨"/proc/self/ns/net", 4⟩),
            .SetupVeth "eth0" 1400 ⟨"/proc/self/ns/net", 4⟩
              (.ok (.veth ⟨"veth0", 7⟩, .veth ⟨"eth0", 2⟩)),
            .NsLeave ⟨"/var/run/netns/ns1", 3⟩,
            .LinkByName "veth0" (.ok (.veth ⟨"veth0", 8⟩)),
            .LinkSetMaster (.veth ⟨"veth0", 8⟩) ⟨⟨"docker0", 3⟩⟩ (.ok ()),
            .LinkSetHairpin (.veth ⟨"veth0", 8⟩) false (.ok ())] ++
          [Event.NsClose ⟨"/var/run/netns/ns1", 3⟩], x.op ≠ .Print)) :=
  ⟨rfl, rfl, rfl,
    (cmdAdd_fail_fast_no_rollback modelHost true (argsFor "/var/run/netns/ns1" [3])
      hostWithBridge).2.1 _ _ _ _ rfl rfl⟩

/-- C10: the provisioning parameters of `cmdAdd` are constants.  For any two
invocations, over any libraries, configuration documents and arguments, that
both reach veth creation: the first call of each looks up `docker0`, each
creates its veth pair with MTU 1400, every hairpin call of either carries
`false`; the namespace opened and the interface name of the veth are those of
the invocation. -/
theorem cmdAdd_parameters_fixed {σ₁ σ₂ : Type} (K₁ : Collab σ₁) (K₂ : Collab σ₂)
    (logOk₁ logOk₂ : Bool) (args₁ args₂ : CmdArgs) (s₁ : σ₁) (s₂ : σ₂)
    (h₁ : ∃ e ∈ (cmdAdd K₁ logOk₁ args₁ s₁).calls, e.op = .SetupVeth)
    (h₂ : ∃ e ∈ (cmdAdd K₂ logOk₂ args₂ s₂).calls, e.op = .SetupVeth) :
    bridgeLookedUp (cmdAdd K₁ logOk₁ args₁ s₁).calls = some "docker0" ∧
      bridgeLookedUp (cmdAdd K₂ logOk₂ args₂ s₂).calls = some "docker0" ∧
      vethMtus (cmdAdd K₁ logOk₁ args₁ s₁).calls = [1400] ∧
      vethMtus (cmdAdd K₂ logOk₂ args₂ s₂).calls = [1400] ∧
      (∀ m ∈ hairpinModes (cmdAdd K₁ logOk₁ args₁ s₁).calls ++
          hairpinModes (cmdAdd K₂ logOk₂ args₂ s₂).calls, m = false) ∧
      netnsOpened (cmdAdd K₁ logOk₁ args₁ s₁).calls = [args₁.Netns] ∧
      netnsOpened (cmdAdd K₂ logOk₂ args₂ s₂).calls = [args₂.Netns] ∧
      vethNames (cmdAdd K₁ logOk₁ args₁ s₁).calls = [args₁.IfName] ∧
      vethNames (cmdAdd K₂ logOk₂ args₂ s₂).calls = [args₂.IfName] := by
  have a := cmdAdd_params K₁ logOk₁ args₁ s₁ h₁
  have b := cmdAdd_params K₂ logOk₂ args₂ s₂ h₂
  refine ⟨a.1, b.1, a.2.1, b.2.1, ?_, a.2.2.2.1, b.2.2.2.1, a.2.2.2.2, b.2.2.2.2⟩
  intro m hm
  rcases List.mem_append.1 hm with h | h
  · exact a.2.2.1 m h
  · exact b.2.2.1 m h

/-- Witness of C10 on the model host: two invocations that differ in
configuration document, container, namespace and interface name. -/
theorem cmdAdd_parameters_fixed_witness :
    (∃ e ∈ (cmdAdd modelHost true (argsFor "/var/run/netns/ns1" [1]) hostWithBridge).calls,
        e.op = .SetupVeth) ∧
      (∃ e ∈ (cmdAdd modelHost false
          ⟨"beef", "/var/run/netns/ns2", "net1", "K=V", "/opt/cni/bin", [3, 7]⟩
          hostWithBridge).calls, e.op = .SetupVeth) ∧
      bridgeLookedUp
          (cmdAdd modelHost true (argsFor "/var/run/netns/ns1" [1]) hostWithBridge).calls =
        some "docker0" ∧
      bridgeLookedUp
          (cmdAdd modelHost false
            ⟨"beef", "/var/run/netns/ns2", "net1", "K=V", "/opt/cni/bin", [3, 7]⟩
            hostWithBridge).calls = some "docker0" ∧
      vethMtus (cmdAdd modelHost true (argsFor "/var/run/netns/ns1" [1]) hostWithBridge).calls =
        [1400] ∧
      vethMtus
          (cmdAdd modelHost false
            ⟨"beef", "/var/run/netns/ns2", "net1", "K=V", "/opt/cni/bin", [3, 7]⟩
            hostWithBridge).calls = [1400] :=
  have h := cmdAdd_parameters_fixed modelHost modelHost true false
    (argsFor "/var/run/netns/ns1" [1])
    ⟨"beef", "/var/run/netns/ns2", "net1", "K=V", "/opt/cni/bin", [3, 7]⟩
    hostWithBridge hostWithBridge (by decide) (by decide)
  ⟨by decide, by decide, h.1, h.2.1, h.2.2.1, h.2.2.2.1⟩

/-! ## setupVeth -/

/-- C9: the calls of `setupVeth` with requested hairpin flag `h` take one of six
shapes.  The link given to `LinkSetMaster` and to `LinkSetHairpin` is the
result `l` of `LinkByName` on the name of the host end returned by veth
creation, looked up after the switch back from the container namespace, and
not the handle `hv` veth creation returned; the hairpin call carries exactly
`h` and follows a successful `LinkSetMaster`; a failed re-lookup is the last
call; a failed `LinkSetMaster` is the last call; a failed `LinkSetHairpin` is
the last call and returns its error, nothing undoes the enslavement. -/
theorem setupVeth_relookup_then_enslave_then_hairpin {σ : Type} (K : Collab σ) (netns : NetNS)
    (br : Bridge) (ifName : String) (mtu : Int) (h : Bool) (s : σ) :
    (∃ c, (setupVeth K netns br ifName mtu h s).ret = some (.ext c) ∧
      (setupVeth K netns br ifName mtu h s).calls = [.NsEnter netns (.err c)]) ∨
    (∃ hostNS c, (setupVeth K netns br ifName mtu h s).ret = some (.ext c) ∧
      (setupVeth K netns br ifName mtu h s).calls =
        [.NsEnter netns (.ok hostNS), .SetupVeth ifName mtu hostNS (.err c),
          .NsLeave netns]) ∨
    (∃ hostNS hv cv c,
      (setupVeth K netns br ifName mtu h s).ret = some (.failedToLookup hv.Attrs.Name c) ∧
      (setupVeth K netns br ifName mtu h s).calls =
        [.NsEnter netns (.ok hostNS), .SetupVeth ifName mtu hostNS (.ok (hv, cv)),
          .NsLeave netns, .LinkByName hv.Attrs.Name (.err c)]) ∨
    (∃ hostNS hv cv l c,
      (setupVeth K netns br ifName mtu h s).ret =
        some (.failedToConnect hv.Attrs.Name br.attrs.Name c) ∧
      (setupVeth K netns br ifName mtu h s).calls =
        [.NsEnter netns (.ok hostNS), .SetupVeth ifName mtu hostNS (.ok (hv, cv)),
          .NsLeave netns, .LinkByName hv.Attrs.Name (.ok l),
          .LinkSetMaster l br (.err c)]) ∨
    (∃ hostNS hv cv l c,
      (setupVeth K netns br ifName mtu h s).ret = some (.failedHairpin hv.Attrs.Name c) ∧
      (setupVeth K netns br ifName mtu h s).calls =
        [.NsEnter netns (.ok hostNS), .SetupVeth ifName mtu hostNS (.ok (hv, cv)),
          .NsLeave netns, .LinkByName hv.Attrs.Name (.ok l),
          .LinkSetMaster l br (.ok ()), .LinkSetHairpin l h (.err c)]) ∨
    (∃ hostNS hv cv l,
      (setupVeth K netns br ifName mtu h s).ret = none ∧
      (setupVeth K netns br ifName mtu h s).calls =
        [.NsEnter netns (.ok hostNS), .SetupVeth ifName mtu hostNS (.ok (hv, cv)),
          .NsLeave netns, .LinkByName hv.Attrs.Name (.ok l),
          .LinkSetMaster l br (.ok ()), .LinkSetHairpin l h (.ok ())]) := by
  have hp := setupVeth_path K netns br ifName mtu h s
  generalize (setupVeth K netns br ifName mtu h s).ret = ret at *
  generalize (setupVeth K netns br ifName mtu h s).calls = cs at *
  cases hp with
  | enterFailed c => exact .inl ⟨c, rfl, rfl⟩
  | createFailed hostNS c => exact .inr (.inl ⟨hostNS, c, rfl, rfl⟩)
  | lookupFailed hostNS hv cv c => exact .inr (.inr (.inl ⟨hostNS, hv, cv, c, rfl, rfl⟩))
  | masterFailed hostNS hv cv l c =>
    exact .inr (.inr (.inr (.inl ⟨hostNS, hv, cv, l, c, rfl, rfl⟩)))
  | hairpinFailed hostNS hv cv l c =>
    exact .inr (.inr (.inr (.inr (.inl ⟨hostNS, hv, cv, l, c, rfl, rfl⟩))))
  | done hostNS hv cv l =>
    exact .inr (.inr (.inr (.inr (.inr ⟨hostNS, hv, cv, l, rfl, rfl⟩))))

/-! ## DEL -/

theorem cmdDel_release_ok {σ : Type} (K : Collab σ) (logOk : Bool) (args : CmdArgs) (s : σ)
    (n : NetConf) (hconf : LoadNetConf K args.StdinData = .ok n)
    (hrel : (K.ExecDel n.IPAM.Type_ args.StdinData s).1 = .ok ()) :
    (cmdDel K logOk args s).ret = none ∧
      (args.Netns ≠ "" →
        (cmdDel K logOk args s).calls =
          .ExecDel n.IPAM.Type_ args.StdinData (.ok ()) ::
            (teardownVeth K args.Netns args.IfName
              (K.ExecDel n.IPAM.Type_ args.StdinData s).2).calls ∧
        (cmdDel K logOk args s).world =
          (teardownVeth K args.Netns args.IfName
            (K.ExecDel n.IPAM.Type_ args.StdinData s).2).world) := by
  unfold cmdDel
  simp only [hconf, hrel]
  by_cases he : args.Netns = ""
  · simp [he]
  · simp [he]

theorem cmdDel_release_failed {σ : Type} (K : Collab σ) (logOk : Bool) (args : CmdArgs) (s : σ)
    (n : NetConf) (c : ExtErr) (hconf : LoadNetConf K args.StdinData = .ok n)
    (hrel : (K.ExecDel n.IPAM.Type_ args.StdinData s).1 = .err c) :
    (cmdDel K logOk args s).ret = some (.ext c) ∧
      (cmdDel K logOk args s).calls = [.ExecDel n.IPAM.Type_ args.StdinData (.err c)] ∧
      (cmdDel K logOk args s).world = (K.ExecDel n.IPAM.Type_ args.StdinData s).2 := by
  unfold cmdDel
  simp only [hconf, hrel, and_self]

/-- C5: when the configuration document loads and `ipam.ExecDel` succeeds,
`cmdDel` returns success.  With a target namespace it runs `teardownVeth` after
the release and drops what `teardownVeth` returns, so a namespace that cannot
be entered or an interface that is gone does not change the result.  A second
DEL on the world the first one left, with the same arguments, returns success
as well when its release succeeds. -/
theorem cmdDel_succeeds_whatever_teardown {σ : Type} (K : Collab σ) (logOk : Bool)
    (args : CmdArgs) (s : σ) (n : NetConf)
    (hconf : LoadNetConf K args.StdinData = .ok n)
    (hrel : (K.ExecDel n.IPAM.Type_ args.StdinData s).1 = .ok ()) :
    (cmdDel K logOk args s).ret = none ∧
      (args.Netns ≠ "" →
        (cmdDel K logOk args s).calls =
          .ExecDel n.IPAM.Type_ args.StdinData (.ok ()) ::
            (teardownVeth K args.Netns args.IfName
              (K.ExecDel n.IPAM.Type_ args.StdinData s).2).calls ∧
        (cmdDel K logOk args s).world =
          (teardownVeth K args.Netns args.IfName
            (K.ExecDel n.IPAM.Type_ args.StdinData s).2).world) ∧
      (∀ logOk₂ : Bool,
        (K.ExecDel n.IPAM.Type_ args.StdinData (cmdDel K logOk args s).world).1 = .ok () →
        (cmdDel K logOk₂ args (cmdDel K logOk args s).world).ret = none) :=
  ⟨(cmdDel_release_ok K logOk args s n hconf hrel).1,
    (cmdDel_release_ok K logOk args s n hconf hrel).2,
    fun logOk₂ h => (cmdDel_release_ok K logOk₂ args _ n hconf h).1⟩

/-- Witness of C5 on the model host after an ADD: the first DEL removes the
interface, the second finds it gone, `teardownVeth` fails there, and both DEL
invocations return success. -/
theorem cmdDel_succeeds_whatever_teardown_witness :
    (teardownVeth modelHost "/var/run/netns/ns1" "eth0"
        (cmdDel modelHost true (argsFor "/var/run/netns/ns1" [1]) hostAfterAdd).world).ret =
        some (.ext "failed to lookup") ∧
      (cmdDel modelHost true (argsFor "/var/run/netns/ns1" [1]) hostAfterAdd).ret = none ∧
      (cmdDel modelHost true (argsFor "/var/run/netns/ns1" [1])
        (cmdDel modelHost true (argsFor "/var/run/netns/ns1" [1]) hostAfterAdd).world).ret =
        none :=
  have h := cmdDel_succeeds_whatever_teardown modelHost true (argsFor "/var/run/netns/ns1" [1])
    hostAfterAdd ⟨"k8s", "k8s-cni", ⟨"host-local"⟩⟩ rfl rfl
  ⟨rfl, h.1, h.2.2 true rfl⟩

/-- C6, as the code has it: when the configuration document loads and
`ipam.ExecDel` fails with `c`, `cmdDel` returns that error; the release is its
only call, so `teardownVeth` is not run, and the world is the one the release
left. -/
theorem cmdDel_release_failure_is_fatal {σ : Type} (K : Collab σ) (logOk : Bool)
    (args : CmdArgs) (s : σ) (n : NetConf) (c : ExtErr)
    (hconf : LoadNetConf K args.StdinData = .ok n)
    (hrel : (K.ExecDel n.IPAM.Type_ args.StdinData s).1 = .err c) :
    (cmdDel K logOk args s).ret = some (.ext c) ∧
      (cmdDel K logOk args s).calls = [.ExecDel n.IPAM.Type_ args.StdinData (.err c)] ∧
      (cmdDel K logOk args s).world = (K.ExecDel n.IPAM.Type_ args.StdinData s).2 :=
  cmdDel_release_failed K logOk args s n c hconf hrel

/-- Witness of the amended C6 on the model host with a plugin that is not
installed. -/
theorem cmdDel_release_failure_is_fatal_witness :
    (cmdDel modelHost true (argsFor "/var/run/netns/ns1" [3]) hostAfterAdd).ret =
        some (.ext "failed to find plugin in path") ∧
      (cmdDel modelHost true (argsFor "/var/run/netns/ns1" [3]) hostAfterAdd).calls =
        [.ExecDel "absent" [3] (.err "failed to find plugin in path")] ∧
      (cmdDel modelHost true (argsFor "/var/run/netns/ns1" [3]) hostAfterAdd).world =
        hostAfterAdd :=
  cmdDel_release_failure_is_fatal modelHost true (argsFor "/var/run/netns/ns1" [3])
    hostAfterAdd ⟨"k8s", "k8s-cni", ⟨"absent"⟩⟩ "failed to find plugin in path" rfl rfl

/-- Counterexample to C6 as stated: on the model host after an ADD, with a
configuration that loads, a target namespace and a failing `ipam.ExecDel`,
`cmdDel` does not return success and does not go on to veth removal: the
interface `eth0` is still in the container namespace afterwards. -/
theorem cmdDel_release_failure_nonfatal_counterexample :
    LoadNetConf modelHost (argsFor "/var/run/netns/ns1" [3]).StdinData =
        .ok ⟨"k8s", "k8s-cni", ⟨"absent"⟩⟩ ∧
      (modelHost.ExecDel "absent" (argsFor "/var/run/netns/ns1" [3]).StdinData hostAfterAdd).1 =
        .err "failed to find plugin in path" ∧
      (argsFor "/var/run/netns/ns1" [3]).Netns ≠ "" ∧
      (cmdDel modelHost true (argsFor "/var/run/netns/ns1" [3]) hostAfterAdd).ret ≠ none ∧
      (∀ e ∈ (cmdDel modelHost true (argsFor "/var/run/netns/ns1" [3]) hostAfterAdd).calls,
        e.op ≠ .GetNS ∧ e.op ≠ .DelLinkByNameAddr) ∧
      (cmdDel modelHost true (argsFor "/var/run/netns/ns1" [3]) hostAfterAdd).world.contLinks =
        ["eth0"] := by
  refine ⟨rfl, rfl, by decide, by decide, by decide, rfl⟩

end K8sCni
